import Mathlib

/-!
Verification of the Titanic analytics chat application:
the query gateway (`src/server.ts`, `POST /api/query`) and the chat
orchestrator (`src/src/App.tsx`, `handleSubmit` / `renderChart`),
shallowly embedded as executable Lean definitions.
-/

set_option maxRecDepth 4000

/-! ## Scalar values and result rows

The tabular store returns rows as mappings from column name to a scalar
value (integer, text, or null).  Reals are not needed by any claim and are
represented by integers. -/

/-- A scalar cell value in a query-result row. -/
inductive Scalar where
  | int (i : Int)
  | text (t : String)
  | null
  deriving DecidableEq, Repr

/-- A result row: an ordered mapping from column name to scalar value,
as produced by the store's `.all()`. -/
abbrev Row := List (String × Scalar)

/-- The ordered key list of a row (`Object.keys(row)`). -/
def rowKeys (r : Row) : List String := r.map Prod.fst

/-- Property access `row[k]`: the first binding for `k`, or `none`
(JavaScript `undefined`) when the key is absent. -/
def rowGet (r : Row) (k : String) : Option Scalar :=
  (List.find? (fun p => p.fst == k) r).map Prod.snd

/-! ## JavaScript request-body values

`req.body.sql` is arbitrary JSON; the handler in `server.ts` applies the
truthiness test `!sql` and then calls `sql.trim()`, which throws a
`TypeError` on non-strings. -/

/-- A JavaScript value as it can appear in the `sql` field of the request
body (absent field = `undefined`). -/
inductive JSValue where
  | undef
  | null
  | bool (b : Bool)
  | num (n : Int)
  | str (s : String)
  | obj
  deriving DecidableEq, Repr

/-- JavaScript truthiness: `undefined`, `null`, `false`, `0` and `""` are
falsy; every other value of the modelled shapes is truthy. -/
def JSValue.truthy : JSValue → Bool
  | .undef => false
  | .null => false
  | .bool b => b
  | .num n => n != 0
  | .str s => s ≠ ""
  | .obj => true

/-! ## The query gateway (`POST /api/query`, server.ts lines 93–113) -/

/-- The body of an HTTP response from the gateway: either a JSON error
object `\x7berror: ...\x7d` or a JSON data object `\x7bdata: rows\x7d`. -/
inductive ResponseBody where
  | errorMsg (e : String)
  | dataRows (rows : List Row)
  deriving DecidableEq, Repr

/-- An HTTP response: status code plus JSON body. -/
structure HttpResponse where
  status : Nat
  body : ResponseBody
  deriving DecidableEq, Repr

/-- The store's query execution (`db.prepare(sql).all()`): either a list
of rows or a thrown error with a message.  Abstracted as a function
parameter, since the SQL engine itself is an external collaborator. -/
def Store := String → Except String (List Row)

/-- Drop leading whitespace characters from a character list. -/
def dropSpaces : List Char → List Char
  | [] => []
  | c :: cs => if c.isWhitespace then dropSpaces cs else c :: cs

/-- JavaScript `String.prototype.trim()`: remove whitespace from both
ends, embedded structurally over the character list. -/
def jsTrim (cs : List Char) : List Char :=
  ((dropSpaces cs).reverse |> dropSpaces).reverse

/-- `String.prototype.toUpperCase()` restricted to ASCII, which covers
every SQL keyword the guard compares against. -/
def asciiUpper (c : Char) : Char :=
  if 'a' ≤ c && c ≤ 'z' then Char.ofNat (c.toNat - 32) else c

/-- `String.prototype.startsWith(pat)` over character lists. -/
def startsWithList : List Char → List Char → Bool
  | _, [] => true
  | [], _ :: _ => false
  | c :: cs, p :: ps => c == p && startsWithList cs ps

/-- The read-only guard of the gateway:
`sql.trim().toUpperCase().startsWith("SELECT")` (server.ts line 103). -/
def selectCheck (s : String) : Bool :=
  startsWithList ((jsTrim s.data).map asciiUpper) "SELECT".data

/-- The `POST /api/query` handler (server.ts lines 93–113), embedded over
an abstract store.  Returns the HTTP response together with a flag
recording whether the store's query execution was invoked.
The `try` block turns any thrown error — including the `TypeError` from
calling `.trim()` on a non-string `sql` — into a 500 response. -/
def handleQuery (store : Store) (sql : JSValue) : HttpResponse × Bool :=
  if ¬ sql.truthy then
    (⟨400, .errorMsg "No SQL query provided"⟩, false)
  else
    match sql with
    | .str s =>
      if ¬ selectCheck s then
        (⟨403, .errorMsg "Only SELECT queries are allowed"⟩, false)
      else
        match store s with
        | .ok rows => (⟨200, .dataRows rows⟩, true)
        | .error e => (⟨500, .errorMsg e⟩, true)
    | _ => (⟨500, .errorMsg "sql.trim is not a function"⟩, false)

/-! ## Theorems about the gateway -/

/-- Claim C1: a truthy string `sql` whose trimmed, uppercased form does not
start with "SELECT" yields HTTP 403, and the store is never invoked. -/
theorem gateway_non_select_rejected (store : Store) (s : String)
    (hne : s ≠ "") (hsel : selectCheck s = false) :
    handleQuery store (.str s) = (⟨403, .errorMsg "Only SELECT queries are allowed"⟩, false) := by
  simp [handleQuery, JSValue.truthy, hne, hsel]

/-- Witness for C1: the spec's example `DELETE FROM titanic` is rejected
with 403 and no store access, for an arbitrary concrete store. -/
theorem gateway_non_select_rejected_witness :
    handleQuery (fun _ => .ok []) (.str "DELETE FROM titanic")
      = (⟨403, .errorMsg "Only SELECT queries are allowed"⟩, false) :=
  gateway_non_select_rejected (fun _ => .ok []) "DELETE FROM titanic"
    (by decide) (by decide)

/-- Claim C7: an absent (`undefined`) or empty-string `sql` yields HTTP 400
and the store is never invoked. -/
theorem gateway_empty_rejected (store : Store) :
    handleQuery store .undef = (⟨400, .errorMsg "No SQL query provided"⟩, false)
    ∧ handleQuery store (.str "") = (⟨400, .errorMsg "No SQL query provided"⟩, false) := by
  constructor <;> rfl

/-- Claim C6: a validated `sql` (truthy string passing the SELECT guard) is
executed: success yields HTTP 200 carrying all result rows, and a store
error yields HTTP 500 carrying the store's message verbatim; the store is
invoked in both cases. -/
theorem gateway_valid_executes (store : Store) (s : String)
    (hne : s ≠ "") (hsel : selectCheck s = true) :
    (∀ rows, store s = .ok rows →
      handleQuery store (.str s) = (⟨200, .dataRows rows⟩, true))
    ∧ (∀ e, store s = .error e →
      handleQuery store (.str s) = (⟨500, .errorMsg e⟩, true)) := by
  constructor <;> intro x hx <;> simp [handleQuery, JSValue.truthy, hne, hsel, hx]

/-- Witness for C6: `SELECT Pclass, COUNT 1` on a store that answers with
two rows returns them with 200; on a store that fails it returns 500 with
the store's message. -/
theorem gateway_valid_executes_witness :
    handleQuery (fun _ => .ok [[("Pclass", .int 1), ("cnt", .int 3)]])
        (.str "SELECT Pclass FROM titanic")
      = (⟨200, .dataRows [[("Pclass", .int 1), ("cnt", .int 3)]]⟩, true)
    ∧ handleQuery (fun _ => .error "no such column: foo")
        (.str "SELECT foo FROM titanic")
      = (⟨500, .errorMsg "no such column: foo"⟩, true) :=
  ⟨(gateway_valid_executes _ "SELECT Pclass FROM titanic" (by decide) (by decide)).1 _ rfl,
   (gateway_valid_executes _ "SELECT foo FROM titanic" (by decide) (by decide)).2 _ rfl⟩

/-- Claim C10: a truthy non-string `sql` (number, object, `true`) makes the
handler throw a `TypeError` at `sql.trim()`, caught by the handler's
`catch`, so the response is 500 — not 400 and not 403 — and the store is
never invoked. -/
theorem gateway_non_string_500 (store : Store) (v : JSValue)
    (htruthy : v.truthy = true) (hnotstr : ∀ s, v ≠ .str s) :
    handleQuery store v = (⟨500, .errorMsg "sql.trim is not a function"⟩, false) := by
  cases v with
  | str s => exact absurd rfl (hnotstr s)
  | _ => simp_all [handleQuery, JSValue.truthy]

/-- Witness for C10: the number `5` as the `sql` field yields a 500 with no
store access. -/
theorem gateway_non_string_500_witness :
    handleQuery (fun _ => .ok []) (.num 5)
      = (⟨500, .errorMsg "sql.trim is not a function"⟩, false) :=
  gateway_non_string_500 (fun _ => .ok []) (.num 5) (by decide)
    (fun s h => JSValue.noConfusion h)

/-! ## The chat orchestrator (`src/src/App.tsx`)

`handleSubmit` (lines 104–196) is embedded as a pure transition on the
client state.  The two awaited network calls — the planner
(`ai.models.generateContent` + `JSON.parse`) and the gateway `fetch` —
are passed in as outcome parameters; `id` and `timestamp` fields carry no
logic and are omitted. -/

/-- JavaScript `String(x)` on a row cell (`none` = absent key =
`undefined`). -/
def jsString : Option Scalar → String
  | some (.int i) => toString i
  | some (.text t) => t
  | some .null => "null"
  | none => "undefined"

/-- Decimal digit accumulator for `jsNumber`. -/
def parseDigits : List Char → Nat → Option Nat
  | [], acc => some acc
  | c :: cs, acc =>
    if c.isDigit then parseDigits cs (acc * 10 + (c.toNat - 48)) else none

/-- JavaScript `Number(x)` on a row cell, restricted to the shapes the
store produces: integers map to themselves, `null` to 0, text to its
decimal-integer reading, and everything else (absent key, non-numeric
text) to NaN, modelled as `none`. -/
def jsNumber : Option Scalar → Option Int
  | some (.int i) => some i
  | some .null => some 0
  | none => none
  | some (.text t) =>
    match jsTrim t.data with
    | [] => some 0
    | '-' :: c :: cs => (parseDigits (c :: cs) 0).map (fun n => -(n : Int))
    | cs => (parseDigits cs 0).map (fun n => (n : Int))

/-- A chart data point `\x7bname, value\x7d` (App.tsx lines 30–33);
`value` is `none` when the JavaScript value would be NaN. -/
structure ChartData where
  name : String
  value : Option Int
  deriving DecidableEq, Repr

/-- The chart-data projection (App.tsx lines 162–170): keys are taken
from the first row; when it has at least two, every row is mapped to a
point via its first two key names, otherwise no points are produced. -/
def computeChartData : List Row → List ChartData
  | [] => []
  | r0 :: rest =>
    match rowKeys r0 with
    | k0 :: k1 :: _ =>
      (r0 :: rest).map (fun row => ⟨jsString (rowGet row k0), jsNumber (rowGet row k1)⟩)
    | _ => []

/-- The planner's chart directive as parsed from its JSON output; both
fields may be absent, and `type` is an arbitrary string because the
planner is untrusted. -/
structure PlanChart where
  type : Option String
  title : Option String
  deriving DecidableEq, Repr

/-- The parsed planner output (`result` at App.tsx line 150). -/
structure PlanResult where
  answer : String
  sql : Option String
  chart : Option PlanChart
  deriving DecidableEq, Repr

/-- Outcome of the planner call: either the call or the JSON parse throws,
or a parsed plan is produced. -/
inductive PlannerOutcome where
  | throws (msg : String)
  | plan (result : PlanResult)
  deriving DecidableEq, Repr

/-- Outcome of the gateway `fetch`: either it throws, or it resolves with
an `ok` flag and (when ok) the parsed `data` rows. -/
inductive GatewayOutcome where
  | throws (msg : String)
  | response (ok : Bool) (data : List Row)
  deriving DecidableEq, Repr

/-- A chat-message role. -/
inductive Role where
  | user
  | assistant
  deriving DecidableEq, Repr

/-- The chart object attached to a message:
`\x7b...result.chart, data: chartData\x7d`, so `type` and `title` are
absent when the plan carried no chart. -/
structure MsgChart where
  type : Option String
  title : Option String
  data : List ChartData
  deriving DecidableEq, Repr

/-- A chat message (App.tsx lines 45–52, logic-bearing fields). -/
structure Message where
  role : Role
  content : String
  chart : Option MsgChart
  sql : Option String
  deriving DecidableEq, Repr

/-- The orchestrator's state: conversation history, input field, loading
flag. -/
structure AppState where
  messages : List Message
  input : String
  isLoading : Bool
  deriving DecidableEq, Repr

/-- The result of one `handleSubmit` invocation: the new state, whether
the gateway was invoked, and the query string sent to it. -/
structure TurnResult where
  state : AppState
  gatewayCalled : Bool
  sqlSent : Option String
  deriving DecidableEq, Repr

/-- The error assistant message built in the `catch` block (App.tsx
lines 186–191). -/
def errorMessage (msg : String) : Message :=
  ⟨.assistant, "I'm sorry, I encountered an error: " ++ msg ++ ".", none, none⟩

/-- `result.chart?.type`: `none` both when the chart object and when its
`type` field is absent. -/
def planChartType : Option PlanChart → Option String
  | some pc => pc.type
  | none => none

/-- `\x7b ...result.chart, data: chartData \x7d` (App.tsx line 178). -/
def mergedChart (c : Option PlanChart) (d : List ChartData) : MsgChart :=
  match c with
  | some pc => ⟨pc.type, pc.title, d⟩
  | none => ⟨none, none, d⟩

/-- The assistant message of the success path (App.tsx lines 174–181):
the chart is attached unless `result.chart?.type !== 'none'` fails. -/
def assistantMessage (result : PlanResult) (chartData : List ChartData) : Message :=
  ⟨.assistant, result.answer,
    if planChartType result.chart ≠ some "none"
      then some (mergedChart result.chart chartData) else none,
    result.sql⟩

/-- `handleSubmit` (App.tsx lines 104–196) as a pure transition: guard on
empty input / loading, append the user message, then follow the planner
and (when the plan has a query) gateway outcomes; the `catch` appends the
error message and `finally` clears the loading flag on every path. -/
def handleSubmit (st : AppState) (planner : PlannerOutcome)
    (gateway : GatewayOutcome) : TurnResult :=
  if (jsTrim st.input.data).isEmpty || st.isLoading then
    ⟨st, false, none⟩
  else
    let msgs1 := st.messages ++ [⟨Role.user, st.input, none, none⟩]
    match planner with
    | .throws msg =>
      ⟨⟨msgs1 ++ [errorMessage msg], "", false⟩, false, none⟩
    | .plan result =>
      match result.sql with
      | none =>
        ⟨⟨msgs1 ++ [assistantMessage result []], "", false⟩, false, none⟩
      | some q =>
        match gateway with
        | .throws msg =>
          ⟨⟨msgs1 ++ [errorMessage msg], "", false⟩, true, some q⟩
        | .response ok data =>
          let chartData := if ok then computeChartData data else []
          ⟨⟨msgs1 ++ [assistantMessage result chartData], "", false⟩, true, some q⟩

/-- What `renderChart` (App.tsx lines 198–251) draws. -/
inductive Rendered where
  | bar (title : Option String) (data : List ChartData)
  | pie (title : Option String) (data : List ChartData)
  | line (title : Option String) (data : List ChartData)
  deriving DecidableEq, Repr

/-- `renderChart` (App.tsx lines 198–251): nothing is drawn when there is
no chart, its type is `'none'`, or its data is empty; otherwise the type
selects bar, pie, or (for any other value) line. -/
def renderChart : Option MsgChart → Option Rendered
  | none => none
  | some c =>
    if c.type == some "none" || c.data.isEmpty then none
    else if c.type == some "bar" then some (.bar c.title c.data)
    else if c.type == some "pie" then some (.pie c.title c.data)
    else some (.line c.title c.data)

/-- The SQL disclosure block (App.tsx lines 308–315): shown only when the
message's `sql` field is a truthy (non-empty) string. -/
def sqlDisclosure (m : Message) : Option String :=
  match m.sql with
  | some q => if q ≠ "" then some q else none
  | none => none

/-- Number of assistant messages in a history. -/
def assistantCount (ms : List Message) : Nat :=
  ms.countP (fun m => m.role == Role.assistant)

/-! ## Theorems about the orchestrator -/

/-- Claim C2: every submitted turn (non-blank input, not loading) appends
exactly one assistant message to the history — on the success path with
or without a query, when the planner throws, and when the gateway fetch
throws. -/
theorem one_assistant_per_turn (st : AppState) (p : PlannerOutcome)
    (g : GatewayOutcome)
    (hin : (jsTrim st.input.data).isEmpty = false) (hload : st.isLoading = false) :
    assistantCount (handleSubmit st p g).state.messages
      = assistantCount st.messages + 1 := by
  cases p with
  | throws msg =>
    simp [handleSubmit, hin, hload, assistantCount, List.countP_append,
      List.countP_cons, errorMessage]
  | plan result =>
    cases hsql : result.sql with
    | none =>
      simp [handleSubmit, hin, hload, hsql, assistantCount, List.countP_append,
        List.countP_cons, assistantMessage]
    | some q =>
      cases g with
      | throws msg =>
        simp [handleSubmit, hin, hload, hsql, assistantCount, List.countP_append,
          List.countP_cons, errorMessage]
      | response ok data =>
        simp [handleSubmit, hin, hload, hsql, assistantCount, List.countP_append,
          List.countP_cons, assistantMessage]

/-- Witness for C2: a concrete turn on an empty history ends with exactly
one assistant message. -/
theorem one_assistant_per_turn_witness :
    assistantCount (handleSubmit ⟨[], "hello", false⟩
        (.plan ⟨"hi there", none, none⟩) (.response true [])).state.messages
      = assistantCount [] + 1 :=
  one_assistant_per_turn ⟨[], "hello", false⟩ (.plan ⟨"hi there", none, none⟩)
    (.response true []) (by decide) rfl

/-- Claim C3: when the gateway returns a non-empty row list whose rows all
start with the same two columns `k0`, `k1`, the projection produces one
chart data point per row, with name the stringified first column and
value the numeric second column. -/
theorem chart_point_per_row (data : List Row) (k0 k1 : String)
    (hne : data ≠ [])
    (hkeys : ∀ r ∈ data, (rowKeys r).take 2 = [k0, k1]) :
    (computeChartData data).length = data.length
    ∧ computeChartData data
      = data.map (fun row => ⟨jsString (rowGet row k0), jsNumber (rowGet row k1)⟩) := by
  match data, hne with
  | r0 :: rest, _ =>
    have h0 := hkeys r0 (List.mem_cons_self _ _)
    match hk : rowKeys r0 with
    | [] => simp [hk] at h0
    | [a] => simp [hk] at h0
    | a :: b :: t =>
      rw [hk] at h0
      simp [List.take] at h0
      obtain ⟨ha, hb⟩ := h0
      subst ha; subst hb
      exact ⟨by simp [computeChartData, hk], by simp [computeChartData, hk]⟩

/-- Witness for C3: the spec's worked example — two rows
`\x7bPclass, cnt\x7d` — yields the two points (\"1\", 3) and (\"3\", 2). -/
theorem chart_point_per_row_witness :
    ((computeChartData [[("Pclass", .int 1), ("cnt", .int 3)],
        [("Pclass", .int 3), ("cnt", .int 2)]]).length
      = [[("Pclass", Scalar.int 1), ("cnt", Scalar.int 3)],
        [("Pclass", Scalar.int 3), ("cnt", Scalar.int 2)]].length
    ∧ computeChartData [[("Pclass", .int 1), ("cnt", .int 3)],
        [("Pclass", .int 3), ("cnt", .int 2)]]
      = [[("Pclass", Scalar.int 1), ("cnt", Scalar.int 3)],
        [("Pclass", Scalar.int 3), ("cnt", Scalar.int 2)]].map
          (fun row => ⟨jsString (rowGet row "Pclass"), jsNumber (rowGet row "cnt")⟩))
    ∧ computeChartData [[("Pclass", .int 1), ("cnt", .int 3)],
        [("Pclass", .int 3), ("cnt", .int 2)]]
      = [⟨"1", some 3⟩, ⟨"3", some 2⟩] :=
  ⟨chart_point_per_row _ "Pclass" "cnt" (by decide) (by decide), by decide⟩

/-- Counterexample to claim C4 as stated: when the gateway returns a
non-OK response, `handleSubmit` does NOT take the error path — the `ok`
test only gates chart data — so the appended assistant message carries
the plan's answer text (here "The average fare was 32."), not an error
description. -/
theorem gateway_nonok_shows_answer :
    (handleSubmit ⟨[], "average fare?", false⟩
        (.plan ⟨"The average fare was 32.", some "SELECT AVG(Fare), 1 FROM titanic", none⟩)
        (.response false [])).state.messages.getLast?
      = some ⟨.assistant, "The average fare was 32.", some ⟨none, none, []⟩,
          some "SELECT AVG(Fare), 1 FROM titanic"⟩ := by
  decide

/-- Claim C4 amended: when the gateway fetch throws, the error path runs —
an assistant message with a human-readable error description is appended
instead of the plan's answer — and loading is cleared; when the gateway
merely returns a non-OK response, the turn ends on the success path with
the plan's answer and empty chart data, loading equally cleared. -/
theorem gateway_failure_paths (st : AppState) (p : PlanResult) (q : String)
    (msg : String) (data : List Row)
    (hin : (jsTrim st.input.data).isEmpty = false) (hload : st.isLoading = false)
    (hsql : p.sql = some q) :
    ((handleSubmit st (.plan p) (.throws msg)).state.messages.getLast?
        = some (errorMessage msg)
      ∧ (handleSubmit st (.plan p) (.throws msg)).state.isLoading = false)
    ∧ ((handleSubmit st (.plan p) (.response false data)).state.messages.getLast?
        = some (assistantMessage p [])
      ∧ (handleSubmit st (.plan p) (.response false data)).state.isLoading = false) := by
  simp [handleSubmit, hin, hload, hsql, List.getLast?_concat]

/-- Witness for the amended C4: a concrete throwing fetch yields the error
message with loading cleared, and a concrete 403 (non-OK) response yields
the plan's answer with loading cleared. -/
theorem gateway_failure_paths_witness :
    ((handleSubmit ⟨[], "drop it", false⟩
        (.plan ⟨"Dropping.", some "DROP TABLE titanic", none⟩)
        (.throws "Failed to fetch")).state.messages.getLast?
        = some (errorMessage "Failed to fetch")
      ∧ (handleSubmit ⟨[], "drop it", false⟩
        (.plan ⟨"Dropping.", some "DROP TABLE titanic", none⟩)
        (.throws "Failed to fetch")).state.isLoading = false)
    ∧ ((handleSubmit ⟨[], "drop it", false⟩
        (.plan ⟨"Dropping.", some "DROP TABLE titanic", none⟩)
        (.response false [])).state.messages.getLast?
        = some (assistantMessage ⟨"Dropping.", some "DROP TABLE titanic", none⟩ [])
      ∧ (handleSubmit ⟨[], "drop it", false⟩
        (.plan ⟨"Dropping.", some "DROP TABLE titanic", none⟩)
        (.response false [])).state.isLoading = false) :=
  gateway_failure_paths ⟨[], "drop it", false⟩
    ⟨"Dropping.", some "DROP TABLE titanic", none⟩ "DROP TABLE titanic"
    "Failed to fetch" [] (by decide) rfl rfl

/-- Claim C5: when the plan carries no query string the gateway is never
invoked, no query string is sent, and the appended assistant message is
the plan's answer with nothing rendered as a chart and no SQL
disclosure. -/
theorem no_sql_skips_gateway (st : AppState) (p : PlanResult) (g : GatewayOutcome)
    (hin : (jsTrim st.input.data).isEmpty = false) (hload : st.isLoading = false)
    (hsql : p.sql = none) :
    (handleSubmit st (.plan p) g).gatewayCalled = false
    ∧ (handleSubmit st (.plan p) g).sqlSent = none
    ∧ (handleSubmit st (.plan p) g).state.messages.getLast?
        = some (assistantMessage p [])
    ∧ (assistantMessage p []).content = p.answer
    ∧ renderChart (assistantMessage p []).chart = none
    ∧ sqlDisclosure (assistantMessage p []) = none := by
  refine ⟨?_, ?_, ?_, rfl, ?_, ?_⟩
  · simp [handleSubmit, hin, hload, hsql]
  · simp [handleSubmit, hin, hload, hsql]
  · simp [handleSubmit, hin, hload, hsql, List.getLast?_concat]
  · cases hc : p.chart with
    | none => simp [assistantMessage, renderChart, mergedChart, planChartType, hc]
    | some pc =>
      by_cases ht : pc.type = some "none"
      · simp [assistantMessage, renderChart, planChartType, hc, ht]
      · simp [assistantMessage, renderChart, mergedChart, planChartType, hc, ht]
  · simp [sqlDisclosure, assistantMessage, hsql]

/-- Witness for C5: the spec's "Hello" example — a plan with answer text,
no query, and no chart directive — skips the gateway and shows only the
answer. -/
theorem no_sql_skips_gateway_witness :
    (handleSubmit ⟨[], "Hello", false⟩ (.plan ⟨"Hi! Ask me about the Titanic.", none, none⟩)
        (.response true [])).gatewayCalled = false
    ∧ (handleSubmit ⟨[], "Hello", false⟩ (.plan ⟨"Hi! Ask me about the Titanic.", none, none⟩)
        (.response true [])).sqlSent = none
    ∧ (handleSubmit ⟨[], "Hello", false⟩ (.plan ⟨"Hi! Ask me about the Titanic.", none, none⟩)
        (.response true [])).state.messages.getLast?
        = some (assistantMessage ⟨"Hi! Ask me about the Titanic.", none, none⟩ [])
    ∧ (assistantMessage ⟨"Hi! Ask me about the Titanic.", none, none⟩ []).content
        = "Hi! Ask me about the Titanic."
    ∧ renderChart (assistantMessage ⟨"Hi! Ask me about the Titanic.", none, none⟩ []).chart
        = none
    ∧ sqlDisclosure (assistantMessage ⟨"Hi! Ask me about the Titanic.", none, none⟩ [])
        = none :=
  no_sql_skips_gateway ⟨[], "Hello", false⟩ ⟨"Hi! Ask me about the Titanic.", none, none⟩
    (.response true []) (by decide) rfl rfl

/-- Helper: the success-path assistant message built with empty chart data
never renders a chart, whatever chart type the plan requested. -/
theorem renderChart_assistant_empty (p : PlanResult) :
    renderChart (assistantMessage p []).chart = none := by
  cases hc : p.chart with
  | none => simp [assistantMessage, renderChart, mergedChart, planChartType, hc]
  | some pc =>
    by_cases ht : pc.type = some "none"
    · simp [assistantMessage, renderChart, planChartType, hc, ht]
    · simp [assistantMessage, renderChart, mergedChart, planChartType, hc, ht]

/-- Claim C8: a query that returns zero rows yields empty chart data, so
the appended assistant message renders no chart — even when the plan's
chart spec requested a type other than "none". -/
theorem zero_rows_no_chart (st : AppState) (p : PlanResult) (q : String)
    (hin : (jsTrim st.input.data).isEmpty = false) (hload : st.isLoading = false)
    (hsql : p.sql = some q) :
    (handleSubmit st (.plan p) (.response true [])).state.messages.getLast?
      = some (assistantMessage p [])
    ∧ renderChart (assistantMessage p []).chart = none := by
  refine ⟨?_, renderChart_assistant_empty p⟩
  simp [handleSubmit, hin, hload, hsql, computeChartData, List.getLast?_concat]

/-- Witness for C8: a plan requesting a bar chart whose query returns no
rows ends with an assistant message whose chart renders to nothing. -/
theorem zero_rows_no_chart_witness :
    (handleSubmit ⟨[], "minors over 80?", false⟩
        (.plan ⟨"None found.", some "SELECT Age, Fare FROM titanic WHERE Age > 80",
          some ⟨some "bar", some "Elderly"⟩⟩)
        (.response true [])).state.messages.getLast?
      = some (assistantMessage ⟨"None found.",
          some "SELECT Age, Fare FROM titanic WHERE Age > 80",
          some ⟨some "bar", some "Elderly"⟩⟩ [])
    ∧ renderChart (assistantMessage ⟨"None found.",
        some "SELECT Age, Fare FROM titanic WHERE Age > 80",
        some ⟨some "bar", some "Elderly"⟩⟩ []).chart = none :=
  zero_rows_no_chart ⟨[], "minors over 80?", false⟩
    ⟨"None found.", some "SELECT Age, Fare FROM titanic WHERE Age > 80",
      some ⟨some "bar", some "Elderly"⟩⟩
    "SELECT Age, Fare FROM titanic WHERE Age > 80" (by decide) rfl rfl

/-- Claim C9: while the loading flag is true every submission leaves the
state untouched (nothing is appended, the gateway is not called), and a
submitted turn always ends with the loading flag cleared, on success and
failure paths alike, re-enabling submissions. -/
theorem loading_blocks_submissions (st : AppState) (p : PlannerOutcome)
    (g : GatewayOutcome) :
    (st.isLoading = true → handleSubmit st p g = ⟨st, false, none⟩)
    ∧ ((jsTrim st.input.data).isEmpty = false → st.isLoading = false →
        (handleSubmit st p g).state.isLoading = false) := by
  constructor
  · intro h
    simp [handleSubmit, h]
  · intro hin hload
    cases p with
    | throws msg => simp [handleSubmit, hin, hload]
    | plan result =>
      cases hsql : result.sql with
      | none => simp [handleSubmit, hin, hload, hsql]
      | some q =>
        cases g with
        | throws msg => simp [handleSubmit, hin, hload, hsql]
        | response ok data => simp [handleSubmit, hin, hload, hsql]

/-- Witness for C9: with loading set, a concrete submission is a no-op;
with loading clear, the same submission ends with loading cleared. -/
theorem loading_blocks_submissions_witness :
    handleSubmit ⟨[], "again", true⟩ (.plan ⟨"a", none, none⟩) (.response true [])
      = ⟨⟨[], "again", true⟩, false, none⟩
    ∧ (handleSubmit ⟨[], "again", false⟩ (.plan ⟨"a", none, none⟩)
        (.response true [])).state.isLoading = false :=
  ⟨(loading_blocks_submissions ⟨[], "again", true⟩ (.plan ⟨"a", none, none⟩)
      (.response true [])).1 rfl,
   (loading_blocks_submissions ⟨[], "again", false⟩ (.plan ⟨"a", none, none⟩)
      (.response true [])).2 (by decide) rfl⟩
